import Mathlib

/-!
Shallow embedding of the lineup-exposure generator (`src/index.js`).

The source is JavaScript; we model it as follows:
* JS numbers used as salaries are `Int`; liked-weights are `ℚ`.
* `_.sample(list)` is modelled by an explicit random draw `r : Nat`,
  selecting index `r % list.length` (and `undefined`, i.e. `none`, on an
  empty list).  Randomness is threaded as explicit functions giving the
  draws for each loop iteration and each roster slot.
* JS objects used as string-keyed maps are association lists where a later
  binding shadows an earlier one (`Object.assign` appends).
* The `while` loop of `generateLineups` is modelled with explicit fuel:
  `none` means the loop has not exited within `fuel` iterations.
-/

namespace LineupExposures

/-- A pool entry: `{id, salary, pos, liked}` from `samplePool.json`.
`liked` is the optional liked-weight (absent on most players). -/
structure Player where
  id : Nat
  salary : Int
  pos : List String
  liked : Option ℚ
deriving Repr, DecidableEq

/-- The liked-weight of a player, `0` when absent (JS `undefined` coerces
falsy). -/
def likedWeight (p : Player) : ℚ := p.liked.getD 0

/-- JS truthiness of `player.liked`: present and nonzero. -/
def jsLiked (p : Player) : Bool := likedWeight p ≠ 0

/-- `_.sample(l)` given an explicit random draw `r`: `undefined` (`none`)
on an empty list, otherwise the element at index `r % l.length`. -/
def jsSample (l : List α) (r : Nat) : Option α :=
  if l.isEmpty then none else l.get? (r % l.length)

/-- Lookup in a JS-object association list: the latest binding wins
(`Object.assign` appends bindings). -/
def jsGet (m : List (Nat × α)) (k : Nat) : Option α :=
  match m with
  | [] => none
  | kv :: rest =>
    match jsGet rest k with
    | some v => some v
    | none => if kv.1 = k then some kv.2 else none

/-- The property key produced when a JS *object* (not its id) is used as a
key: `player` coerces to the string `"[object Object]"`.  This models the
lookup `partialIds[player]` on line 37 of `src/index.js`. -/
def jsObjectKeyString (_p : Player) : String := "[object Object]"

/-- `Math.ceil` on our rational model of JS numbers. -/
def jsMathCeil (q : ℚ) : Int := q.ceil

/-- Length of `_.range(x)` for a (possibly fractional) bound:
`max(ceil(x), 0)`. -/
def jsRangeLen (q : ℚ) : Nat := (jsMathCeil q).toNat

/-- `getSalary`: sum of the salaries of a (partial) lineup. -/
def getSalary (lineup : List Player) : Int :=
  lineup.foldl (fun acc curr => acc + curr.salary) 0

/-- `getLineupKey`: player ids joined by `"-"` in slot order. -/
def getLineupKey (lineup : List Player) : String :=
  String.intercalate "-" (lineup.map (fun player => toString player.id))

/-- `getPositionCandidates`: pool players eligible for `position` whose
salary is strictly below the remaining salary. -/
def getPositionCandidates (playerPool : List Player) (position : String)
    (remainingSalary : Int) : List Player :=
  playerPool.filter (fun player =>
    position ∈ player.pos ∧ player.salary < remainingSalary)

/-- The candidate list computed at the top of `getEligiblePlayer`: position
candidates filtered by `!partialIds[player]`.  The JS lookup keys the
*object* `player`, which coerces to `"[object Object]"`, not the id. -/
def eligibleCandidates (playerPool : List Player) (position : String)
    (remainingSalary : Int) (partialIds : List String) : List Player :=
  (getPositionCandidates playerPool position remainingSalary).filter
    (fun player => !(partialIds.contains (jsObjectKeyString player)))

/-- An exposure record `{count, max}` for a liked player. -/
structure Exposure where
  count : Nat
  max : Int
deriving Repr, DecidableEq

/-- The `prep` object: per-position liked distributions plus the initial
exposure records. A position absent from the template maps to the empty
distribution (JS `undefined`; `_.sample(undefined)` is `undefined`). -/
structure Prep where
  dist : String → List (Option Nat)
  exposures : List (Nat × Exposure)

/-- `getEligiblePlayer`: draw from the position's liked distribution; a
truthy liked id restricts the choice to that id (failing when it is not
among the candidates), otherwise a uniform draw among non-liked
candidates.  `r1` is the draw from the distribution, `r2` the uniform
draw. -/
def getEligiblePlayer (playerPool : List Player) (prep : Prep)
    (position : String) (remainingSalary : Int) (partialIds : List String)
    (r1 r2 : Nat) : Option Player :=
  let candidates := eligibleCandidates playerPool position remainingSalary partialIds
  if candidates.length = 0 then none
  else
    let nonLikedCandidates := candidates.filter (fun player => !(jsLiked player))
    let selectedLikedId := jsSample (prep.dist position) r1
    match selectedLikedId with
    | some (some lid) =>
      -- a drawn id of 0 would be falsy in JS and fall to the uniform branch
      if lid = 0 then jsSample nonLikedCandidates r2
      else
        let selectedLikedArr := candidates.filter (fun player => player.id = lid)
        selectedLikedArr.head?
    | _ => jsSample nonLikedCandidates r2

/-- `getInitialExposures`: one record per liked pool player,
`count = 0`, `max = Math.ceil(liked * outputCount)`. -/
def getInitialExposures (outputCount : Nat) (playerPool : List Player) :
    List (Nat × Exposure) :=
  (playerPool.filter (fun player => jsLiked player)).map
    (fun curr => (curr.id, ⟨0, jsMathCeil (likedWeight curr * outputCount)⟩))

/-- `isValidLineup`: total salary strictly inside `(salaryFloor, salaryCap)`. -/
def isValidLineup (lineup : List Player) (salaryFloor salaryCap : Int) : Bool :=
  let salary := getSalary lineup
  salaryFloor < salary ∧ salary < salaryCap

/-- `generatePosDist`: each liked player's id repeated `_.range(liked*100)`
times, padded with `null` (`none`) up to 100 entries when short. -/
def generatePosDist (posSubPool : List Player) : List (Option Nat) :=
  let liked := posSubPool.filter (fun player => jsLiked player)
  let likedDist := (liked.map (fun curr =>
    List.replicate (jsRangeLen (likedWeight curr * 100)) (some curr.id))).flatten
  let diff : Int := 100 - likedDist.length
  if 0 < diff then likedDist ++ List.replicate (100 - likedDist.length) none
  else likedDist

/-- `generateLineupPrep`: the per-position distributions (for the template's
positions) together with the initial exposures. -/
def generateLineupPrep (outputCount : Nat) (playerPool : List Player)
    (positions : List String) : Prep where
  dist := fun position =>
    if position ∈ positions then
      generatePosDist (playerPool.filter (fun player => position ∈ player.pos))
    else []
  exposures := getInitialExposures outputCount playerPool

/-- The slot-filling loop of `generateLineup`, carrying the partial lineup
and the `partialIds` key set (keys are `String(selection.id)`).  `slotRand`
gives the two draws used at each slot index. -/
def buildSlots (playerPool : List Player) (prep : Prep) (salaryCap : Int)
    (slotRand : Nat → Nat × Nat) :
    List String → Nat → List Player → List String → Option (List Player)
  | [], _, partialLineup, _ => some partialLineup
  | position :: rest, posId, partialLineup, partialIds =>
    let remainingSalary := salaryCap - getSalary partialLineup
    match getEligiblePlayer playerPool prep position remainingSalary partialIds
        (slotRand posId).1 (slotRand posId).2 with
    | none => none
    | some selection =>
      buildSlots playerPool prep salaryCap slotRand rest (posId + 1)
        (partialLineup ++ [selection]) (partialIds ++ [toString selection.id])

/-- `generateLineup`: fill every template slot or fail (`salaryFloor` is an
unused parameter, as in the source). -/
def generateLineup (playerPool : List Player) (prep : Prep)
    (positions : List String) (salaryFloor salaryCap : Int)
    (slotRand : Nat → Nat × Nat) : Option (List Player) :=
  let _unused := salaryFloor
  buildSlots playerPool prep salaryCap slotRand positions 0 [] []

/-- The mutable state of the `generateLineups` loop.  `iter` counts loop
iterations and indexes the random source. -/
structure GenState where
  lineups : List (List Player)
  lineupKeys : List String
  consecutiveAttemptNum : Nat
  exposures : List (Nat × Exposure)
  iter : Nat
deriving Repr, DecidableEq

/-- `failThreshold` from `generateLineups`. -/
def failThreshold : Nat := 100

/-- The exposure record for `id`, defaulting to `{count 0, max 0}`; the
default is unreachable for preps built by `generateLineupPrep` over the
same pool (JS would throw on a genuinely missing record). -/
def jsGetExp (exposures : List (Nat × Exposure)) (k : Nat) : Exposure :=
  (jsGet exposures k).getD ⟨0, 0⟩

/-- The `updateExposure` reducer: record `count + 1` (reading the counts
held *before* this acceptance) while keeping `max`. -/
def updateExposure (exposures : List (Nat × Exposure))
    (acc : List (Nat × Exposure)) (curr : Player) : List (Nat × Exposure) :=
  acc ++ [(curr.id, ⟨(jsGetExp exposures curr.id).count + 1,
                     (jsGetExp exposures curr.id).max⟩)]

/-- One iteration of the `while` body of `generateLineups`.  Note the
source increments `consecutiveAttemptNum` only inside `if (candidate)`,
and an accepted candidate resets it to 0 and then increments it. -/
def genStep (playerPool : List Player) (prep : Prep) (positions : List String)
    (salaryFloor salaryCap : Int) (rand : Nat → Nat → Nat × Nat)
    (s : GenState) : GenState :=
  match generateLineup playerPool prep positions salaryFloor salaryCap (rand s.iter) with
  | none => { s with iter := s.iter + 1 }
  | some candidate =>
    let lineupKey := getLineupKey candidate
    let isValid := isValidLineup candidate salaryFloor salaryCap
    if !(s.lineupKeys.contains lineupKey) && isValid then
      let updatedExposures := (candidate.filter (fun player => jsLiked player)).foldl
        (updateExposure s.exposures) []
      { lineups := s.lineups ++ [candidate]
        lineupKeys := s.lineupKeys ++ [lineupKey]
        -- reset to 0 on acceptance, then the shared `+= 1` runs
        consecutiveAttemptNum := 0 + 1
        exposures := s.exposures ++ updatedExposures
        iter := s.iter + 1 }
    else
      { s with consecutiveAttemptNum := s.consecutiveAttemptNum + 1
               iter := s.iter + 1 }

/-- The `while` loop of `generateLineups`, with fuel: `none` means the loop
has not exited within `fuel` iterations. -/
def genLoop (outputCount : Nat) (playerPool : List Player) (prep : Prep)
    (positions : List String) (salaryFloor salaryCap : Int)
    (rand : Nat → Nat → Nat × Nat) : Nat → GenState → Option GenState
  | 0, _ => none
  | fuel + 1, s =>
    if s.lineups.length < outputCount ∧ s.consecutiveAttemptNum < failThreshold then
      genLoop outputCount playerPool prep positions salaryFloor salaryCap rand fuel
        (genStep playerPool prep positions salaryFloor salaryCap rand s)
    else some s

/-- The initial loop state of `generateLineups`. -/
def initState (prep : Prep) : GenState := ⟨[], [], 0, prep.exposures, 0⟩

/-- `generateLineups`: run the loop from the initial state and return the
accepted lineups (when the loop exits within `fuel` iterations). -/
def generateLineups (outputCount : Nat) (playerPool : List Player) (prep : Prep)
    (positions : List String) (salaryFloor salaryCap : Int)
    (rand : Nat → Nat → Nat × Nat) (fuel : Nat) : Option (List (List Player)) :=
  (genLoop outputCount playerPool prep positions salaryFloor salaryCap rand fuel
    (initState prep)).map GenState.lineups

/-! ### Concrete inputs used by counterexamples and witnesses -/

/-- Liked point guard, weight `1/2`. -/
def pA : Player := ⟨1, 10, ["PG"], some (1/2)⟩

/-- Non-liked shooting guard. -/
def pC : Player := ⟨3, 10, ["SG"], none⟩

/-- Another non-liked shooting guard. -/
def pD : Player := ⟨4, 20, ["SG"], none⟩

/-- A pool with one liked PG and two non-liked SGs. -/
def poolA : List Player := [pA, pC, pD]

/-- Prep for `poolA` with a requested count of 2: player 1 gets
`max = ceil(1/2 × 2) = 1`. -/
def prepA : Prep := generateLineupPrep 2 poolA ["PG", "SG"]

/-- Random source: always draw index 0 from the position distribution
(hitting player 1's biased entries for PG), and draw the lineup-set
iteration number in the uniform branch (picking `pC` then `pD`). -/
def randA : Nat → Nat → Nat × Nat := fun iter _ => (0, iter)

/-- Single non-liked point guard. -/
def pB : Player := ⟨1, 10, ["PG"], none⟩

/-- A pool holding just `pB`. -/
def poolB : List Player := [pB]

/-- Prep for `poolB` over a template with two PG slots. -/
def prepB : Prep := generateLineupPrep 1 poolB ["PG", "PG"]

/-- Single non-liked point guard with salary 100. -/
def pW : Player := ⟨1, 100, ["PG"], none⟩

/-- A pool holding just `pW`. -/
def poolW : List Player := [pW]

/-- Prep for `poolW` over a one-slot template. -/
def prepW : Prep := generateLineupPrep 1 poolW ["PG"]

/-! ### Claims -/

attribute [local semireducible] Rat.mul Rat.add Rat.sub Rat.inv in
/-- C1: refuted on the code.  Acceptance in `generateLineups` checks only
key-uniqueness and the salary band; exposure `max` is never consulted.  On
`poolA` with requested count 2, both accepted lineups contain liked player
1, whose record ends at `count = 2` while `max = 1`. -/
theorem c1_exposure_cap_violated :
    (genLoop 2 poolA prepA ["PG", "SG"] 5 1000 randA 3 (initState prepA)).map
      (fun s => ((s.lineups.filter (fun l => l.any (fun p => p.id = 1))).length,
                 jsGetExp s.exposures 1))
      = some (2, ⟨2, 1⟩) := by decide

/-- One loop iteration over the empty pool only advances the iteration
counter: the builder fails, and the `+= 1` of `consecutiveAttemptNum` sits
inside `if (candidate)`. -/
theorem genStep_nil_pool (prep : Prep) (salaryFloor salaryCap : Int)
    (rand : Nat → Nat → Nat × Nat) (s : GenState) :
    genStep [] prep ["PG"] salaryFloor salaryCap rand s = { s with iter := s.iter + 1 } := rfl

/-- C2: refuted on the code.  With a pool from which no lineup can be
built (here: the empty pool) and one lineup requested, the consecutive-
failure counter is never incremented, so the `while` loop never exits:
for every number of iterations the loop is still running. -/
theorem c2_loop_never_terminates (fuel : Nat) (prep : Prep)
    (rand : Nat → Nat → Nat × Nat) (salaryFloor salaryCap : Int)
    (exposures : List (Nat × Exposure)) (it : Nat) :
    genLoop 1 [] prep ["PG"] salaryFloor salaryCap rand fuel
      ⟨[], [], 0, exposures, it⟩ = none := by
  induction fuel generalizing it with
  | zero => rfl
  | succ n ih =>
    rw [genLoop, if_pos, genStep_nil_pool]
    · exact ih (it + 1)
    · exact ⟨by simp, by simp [failThreshold]⟩

/-- C3: refuted on the code.  The filter `!partialIds[player]` keys the
map by the coerced *object* string, never by the id, so a player already
placed is not excluded: on a one-player pool and a two-PG template the
builder returns the same player in both slots. -/
theorem c3_duplicate_player_in_lineup :
    generateLineup poolB prepB ["PG", "PG"] 5 100 (fun _ => (0, 0))
      = some [pB, pB] := by decide

attribute [local semireducible] Rat.mul Rat.add Rat.sub Rat.inv in
/-- C4: refuted on the code.  A builder failure leaves the consecutive-
failure counter unchanged (here 0, not incremented to 1), and the
iteration that accepts a lineup ends with the counter at 1 (reset to 0,
then incremented by the shared `+= 1`), not 0. -/
theorem c4_failure_counter_behaviour :
    (genStep [] prepB ["PG"] 5 100 (fun _ _ => (0, 0))
        (initState prepB)).consecutiveAttemptNum = 0
    ∧ ((genStep poolA prepA ["PG", "SG"] 5 1000 randA
        (initState prepA)).consecutiveAttemptNum = 1
      ∧ (genStep poolA prepA ["PG", "SG"] 5 1000 randA
        (initState prepA)).lineups.length = 1) := by
  exact ⟨rfl, by decide, by decide⟩

/-- Case analysis of one loop iteration: either the accepted set is
untouched, or exactly one candidate is appended, and that candidate passed
the salary-band check and carried a fresh composition key. -/
theorem genStep_cases (playerPool : List Player) (prep : Prep)
    (positions : List String) (salaryFloor salaryCap : Int)
    (rand : Nat → Nat → Nat × Nat) (s : GenState) :
    ((genStep playerPool prep positions salaryFloor salaryCap rand s).lineups = s.lineups
      ∧ (genStep playerPool prep positions salaryFloor salaryCap rand s).lineupKeys
          = s.lineupKeys)
    ∨ ∃ c, isValidLineup c salaryFloor salaryCap = true
        ∧ s.lineupKeys.contains (getLineupKey c) = false
        ∧ (genStep playerPool prep positions salaryFloor salaryCap rand s).lineups
            = s.lineups ++ [c]
        ∧ (genStep playerPool prep positions salaryFloor salaryCap rand s).lineupKeys
            = s.lineupKeys ++ [getLineupKey c] := by
  cases hgen : generateLineup playerPool prep positions salaryFloor salaryCap (rand s.iter) with
  | none =>
    left
    constructor
    · simp only [genStep, hgen]
    · simp only [genStep, hgen]
  | some candidate =>
    simp only [genStep, hgen]
    by_cases h : (!(s.lineupKeys.contains (getLineupKey candidate))
        && isValidLineup candidate salaryFloor salaryCap) = true
    · rw [if_pos h]
      rcases Bool.and_eq_true_iff.mp h with ⟨h1, h2⟩
      exact Or.inr ⟨candidate, h2, by simpa using h1, rfl, rfl⟩
    · rw [if_neg h]
      exact Or.inl ⟨rfl, rfl⟩

/-- Salary-band invariant of the assembler loop: if every already-accepted
lineup is valid on entry, every accepted lineup is valid when the loop
exits. -/
theorem genLoop_salary_invariant (outputCount : Nat) (playerPool : List Player)
    (prep : Prep) (positions : List String) (salaryFloor salaryCap : Int)
    (rand : Nat → Nat → Nat × Nat) :
    ∀ fuel s t, genLoop outputCount playerPool prep positions salaryFloor salaryCap
        rand fuel s = some t →
      (∀ l ∈ s.lineups, isValidLineup l salaryFloor salaryCap = true) →
      ∀ l ∈ t.lineups, isValidLineup l salaryFloor salaryCap = true := by
  intro fuel
  induction fuel with
  | zero => intro s t h; cases h
  | succ n ih =>
    intro s t h hs
    rw [genLoop] at h
    split at h
    · refine ih _ _ h ?_
      intro l hl
      rcases genStep_cases playerPool prep positions salaryFloor salaryCap rand s with
        ⟨h1, _⟩ | ⟨c, hv, _, h1, _⟩
      · exact hs l (h1 ▸ hl)
      · rw [h1] at hl
        rcases List.mem_append.mp hl with h2 | h2
        · exact hs l h2
        · rw [List.mem_singleton.mp h2]
          exact hv
    · cases h
      exact hs

/-- C5: every lineup returned by `generateLineups` has total salary
strictly between `salaryFloor` and `salaryCap`; out-of-band candidates are
never accepted. -/
theorem c5_salary_band (outputCount : Nat) (playerPool : List Player)
    (prep : Prep) (positions : List String) (salaryFloor salaryCap : Int)
    (rand : Nat → Nat → Nat × Nat) (fuel : Nat) (out : List (List Player))
    (h : generateLineups outputCount playerPool prep positions salaryFloor salaryCap
        rand fuel = some out) :
    ∀ l ∈ out, salaryFloor < getSalary l ∧ getSalary l < salaryCap := by
  unfold generateLineups at h
  rcases Option.map_eq_some'.mp h with ⟨t, ht, hout⟩
  intro l hl
  have hv := genLoop_salary_invariant outputCount playerPool prep positions
    salaryFloor salaryCap rand fuel (initState prep) t ht (by intro l hl; cases hl)
    l (hout ▸ hl)
  simpa [isValidLineup] using hv

/-- C5 witness: a concrete terminating run returning one lineup inside the
salary band. -/
theorem c5_salary_band_witness :
    (50 : Int) < getSalary [pW] ∧ getSalary [pW] < 200 :=
  c5_salary_band 1 poolW prepW ["PG"] 50 200 (fun _ _ => (0, 0)) 2 [[pW]]
    (by decide) [pW] (by decide)

/-- Key invariant of the assembler loop: the accepted lineups carry
pairwise-distinct composition keys, all of which are recorded in
`lineupKeys`. -/
theorem genLoop_keys_invariant (outputCount : Nat) (playerPool : List Player)
    (prep : Prep) (positions : List String) (salaryFloor salaryCap : Int)
    (rand : Nat → Nat → Nat × Nat) :
    ∀ fuel s t, genLoop outputCount playerPool prep positions salaryFloor salaryCap
        rand fuel s = some t →
      ((s.lineups.map getLineupKey).Nodup
        ∧ ∀ k ∈ s.lineups.map getLineupKey, k ∈ s.lineupKeys) →
      ((t.lineups.map getLineupKey).Nodup
        ∧ ∀ k ∈ t.lineups.map getLineupKey, k ∈ t.lineupKeys) := by
  intro fuel
  induction fuel with
  | zero => intro s t h; cases h
  | succ n ih =>
    intro s t h hs
    rw [genLoop] at h
    split at h
    · refine ih _ _ h ?_
      rcases genStep_cases playerPool prep positions salaryFloor salaryCap rand s with
        ⟨h1, h2⟩ | ⟨c, _, hfresh, h1, h2⟩
      · exact h1 ▸ h2 ▸ hs
      · have hnotin : getLineupKey c ∉ s.lineupKeys := by
          simpa [List.contains] using hfresh
        have hnotmap : getLineupKey c ∉ s.lineups.map getLineupKey := by
          intro hmem
          exact hnotin (hs.2 _ hmem)
        constructor
        · rw [h1, List.map_append]
          refine List.Nodup.append hs.1 (List.nodup_singleton _) ?_
          intro x hx hx1
          rw [List.map_singleton, List.mem_singleton] at hx1
          exact hnotmap (hx1 ▸ hx)
        · intro k hk
          rw [h1, List.map_append] at hk
          rw [h2, List.mem_append]
          rcases List.mem_append.mp hk with h3 | h3
          · exact Or.inl (hs.2 _ h3)
          · exact Or.inr (by simpa using h3)
    · cases h
      exact hs

/-- C6: the lineups returned by `generateLineups` have pairwise-distinct
composition keys. -/
theorem c6_distinct_keys (outputCount : Nat) (playerPool : List Player)
    (prep : Prep) (positions : List String) (salaryFloor salaryCap : Int)
    (rand : Nat → Nat → Nat × Nat) (fuel : Nat) (out : List (List Player))
    (h : generateLineups outputCount playerPool prep positions salaryFloor salaryCap
        rand fuel = some out) :
    ∀ i j (hi : i < out.length) (hj : j < out.length), i ≠ j →
      getLineupKey out[i] ≠ getLineupKey out[j] := by
  unfold generateLineups at h
  rcases Option.map_eq_some'.mp h with ⟨t, ht, hout⟩
  have hnd : (out.map getLineupKey).Nodup := by
    rw [← hout]
    exact (genLoop_keys_invariant outputCount playerPool prep positions salaryFloor
      salaryCap rand fuel (initState prep) t ht
      (by constructor
          · exact List.nodup_nil
          · intro k hk; cases hk)).1
  intro i j hi hj hne heq
  have hilt : i < (out.map getLineupKey).length := by simpa using hi
  have hjlt : j < (out.map getLineupKey).length := by simpa using hj
  have : (out.map getLineupKey)[i] = (out.map getLineupKey)[j] := by
    rw [List.getElem_map, List.getElem_map]
    exact heq
  exact hne ((List.Nodup.getElem_inj_iff hnd).mp this)

attribute [local semireducible] Rat.mul Rat.add Rat.sub Rat.inv in
/-- C6 witness: a concrete run accepting two lineups with distinct keys. -/
theorem c6_distinct_keys_witness :
    getLineupKey ([[pA, pC], [pA, pD]] : List (List Player))[0]
      ≠ getLineupKey ([[pA, pC], [pA, pD]] : List (List Player))[1] :=
  c6_distinct_keys 2 poolA prepA ["PG", "SG"] 5 1000 randA 3 [[pA, pC], [pA, pD]]
    (by decide) 0 1 (by decide) (by decide) (by decide)

/-- Unfolding of `getInitialExposures` over a cons cell. -/
theorem getInitialExposures_cons (n : Nat) (q : Player) (rest : List Player) :
    getInitialExposures n (q :: rest) =
      if jsLiked q then
        (q.id, ⟨0, jsMathCeil (likedWeight q * n)⟩) :: getInitialExposures n rest
      else getInitialExposures n rest := by
  by_cases hq : jsLiked q <;> simp [getInitialExposures, List.filter_cons, hq]

/-- Unfolding of `jsGet` over a cons cell: the tail (later bindings) is
consulted first. -/
theorem jsGet_cons (a : Nat) (v : α) (m : List (Nat × α)) (k : Nat) :
    jsGet ((a, v) :: m) k =
      match jsGet m k with
      | some w => some w
      | none => if a = k then some v else none := rfl

/-- No exposure record exists for an id carried by no pool player. -/
theorem jsGet_initial_eq_none (n : Nat) (playerPool : List Player) (k : Nat)
    (h : ∀ q ∈ playerPool, q.id ≠ k) :
    jsGet (getInitialExposures n playerPool) k = none := by
  induction playerPool with
  | nil => rfl
  | cons q rest ih =>
    have hrest := ih (fun r hr => h r (List.mem_cons_of_mem q hr))
    rw [getInitialExposures_cons]
    by_cases hq : jsLiked q
    · rw [if_pos hq, jsGet_cons, hrest]
      simp [h q (List.mem_cons_self q rest)]
    · rw [if_neg hq]
      exact hrest

/-- C7: `getInitialExposures` gives every liked pool player a record with
`count = 0` and `max = Math.ceil(liked × outputCount)`, and gives no
record to a non-liked player (pool ids assumed unique). -/
theorem c7_initial_exposures (n : Nat) (playerPool : List Player)
    (hnd : (playerPool.map Player.id).Nodup) (p : Player) (hp : p ∈ playerPool) :
    jsGet (getInitialExposures n playerPool) p.id =
      if jsLiked p then some ⟨0, jsMathCeil (likedWeight p * n)⟩ else none := by
  induction playerPool with
  | nil => cases hp
  | cons q rest ih =>
    rw [List.map_cons, List.nodup_cons] at hnd
    rcases List.mem_cons.mp hp with hpq | hpr
    · subst hpq
      have hnone : jsGet (getInitialExposures n rest) p.id = none :=
        jsGet_initial_eq_none n rest p.id
          (fun r hr hrid => hnd.1 (hrid ▸ List.mem_map_of_mem Player.id hr))
      rw [getInitialExposures_cons]
      by_cases hq : jsLiked p
      · rw [if_pos hq, jsGet_cons, hnone, if_pos hq]
        simp
      · rw [if_neg hq, if_neg hq]
        exact hnone
    · have hne : q.id ≠ p.id := by
        intro he
        exact hnd.1 (he ▸ List.mem_map_of_mem Player.id hpr)
      have ihr := ih hnd.2 hpr
      rw [getInitialExposures_cons]
      by_cases hq : jsLiked q
      · rw [if_pos hq, jsGet_cons, ihr]
        by_cases hp2 : jsLiked p <;> simp [hp2, hne]
      · rw [if_neg hq]
        exact ihr

attribute [local semireducible] Rat.mul Rat.add Rat.sub Rat.inv in
/-- C7 witness: on `poolA` with requested count 2, liked player 1 gets the
record `{count 0, max 1}` and non-liked player 3 gets none. -/
theorem c7_initial_exposures_witness :
    jsGet (getInitialExposures 2 poolA) 1 = some ⟨0, 1⟩
    ∧ jsGet (getInitialExposures 2 poolA) 3 = none := by
  constructor
  · exact (c7_initial_exposures 2 poolA (by decide) pA (by decide)).trans (by decide)
  · exact (c7_initial_exposures 2 poolA (by decide) pC (by decide)).trans (by decide)

/-- The liked-derived part of a position distribution. -/
def likedDist (posSubPool : List Player) : List (Option Nat) :=
  ((posSubPool.filter (fun player => jsLiked player)).map (fun curr =>
    List.replicate (jsRangeLen (likedWeight curr * 100)) (some curr.id))).flatten

/-- Total number of liked-derived entries in a position distribution. -/
def likedSlotCount (posSubPool : List Player) : Nat :=
  ((posSubPool.filter (fun player => jsLiked player)).map
    (fun curr => jsRangeLen (likedWeight curr * 100))).sum

/-- `generatePosDist` pads the liked entries with sentinels exactly when
they number fewer than 100. -/
theorem generatePosDist_eq (posSubPool : List Player) :
    generatePosDist posSubPool =
      if (likedDist posSubPool).length < 100 then
        likedDist posSubPool
          ++ List.replicate (100 - (likedDist posSubPool).length) none
      else likedDist posSubPool := by
  unfold generatePosDist likedDist
  by_cases h : (((posSubPool.filter (fun player => jsLiked player)).map (fun curr =>
      List.replicate (jsRangeLen (likedWeight curr * 100)) (some curr.id))).flatten).length < 100
  · rw [if_pos (by omega : (0:Int) < 100 - _), if_pos h]
  · rw [if_neg (by omega : ¬ (0:Int) < 100 - _), if_neg h]

/-- The liked part's length is the sum of the per-player entry counts. -/
theorem likedDist_length (posSubPool : List Player) :
    (likedDist posSubPool).length = likedSlotCount posSubPool := by
  simp [likedDist, likedSlotCount, List.length_flatten, List.map_map, Function.comp_def,
    List.length_replicate]

/-- No sentinel occurs among the liked-derived entries. -/
theorem likedDist_count_none (posSubPool : List Player) :
    (likedDist posSubPool).count (none : Option Nat) = 0 := by
  rw [likedDist, List.count_flatten, List.map_map]
  apply List.sum_eq_zero
  intro x hx
  rcases List.mem_map.mp hx with ⟨q, _, rfl⟩
  simp [Function.comp, List.count_replicate]

/-- An id carried by no player of the list contributes no entries. -/
theorem count_flatten_replicate_zero (l : List Player) (k : Nat) (f : Player → Nat)
    (h : ∀ q ∈ l, q.id ≠ k) :
    ((l.map (fun curr => List.replicate (f curr) (some curr.id))).flatten).count (some k)
      = 0 := by
  rw [List.count_flatten, List.map_map]
  apply List.sum_eq_zero
  intro x hx
  rcases List.mem_map.mp hx with ⟨q, hq, rfl⟩
  simp [Function.comp, List.count_replicate, h q hq]

/-- With pairwise-distinct ids, a member's id occurs exactly its own
replicate count many times in the flattened replicate blocks. -/
theorem count_flatten_replicate (l : List Player) (p : Player) (f : Player → Nat)
    (hnd : (l.map Player.id).Nodup) (hp : p ∈ l) :
    ((l.map (fun curr => List.replicate (f curr) (some curr.id))).flatten).count (some p.id)
      = f p := by
  induction l with
  | nil => cases hp
  | cons q rest ih =>
    rw [List.map_cons, List.nodup_cons] at hnd
    rw [List.map_cons, List.flatten_cons, List.count_append]
    rcases List.mem_cons.mp hp with hpq | hpr
    · subst hpq
      rw [List.count_replicate_self,
        count_flatten_replicate_zero rest p.id f
          (fun r hr hrid => hnd.1 (hrid ▸ List.mem_map_of_mem Player.id hr)),
        Nat.add_zero]
    · have hne : q.id ≠ p.id := fun he => hnd.1 (he ▸ List.mem_map_of_mem Player.id hpr)
      rw [List.count_replicate, ih hnd.2 hpr]
      simp [hne]

/-- `Math.ceil` of a non-negative rational is non-negative. -/
theorem jsMathCeil_nonneg (q : ℚ) (h : 0 ≤ q) : 0 ≤ jsMathCeil q := by
  unfold jsMathCeil Rat.ceil
  have hnum : 0 ≤ q.num := Rat.num_nonneg.mpr h
  split
  · exact hnum
  · have hden : (0 : Int) ≤ (q.den : Int) := Int.natCast_nonneg q.den
    have := Int.ediv_nonneg hnum hden
    omega

/-- C8: each liked player's id occurs exactly `ceil(liked × 100)` times in
its position distribution; sentinels pad the sequence to length exactly
100 when the liked entries number below 100, and otherwise no sentinel is
added and the length is the total liked entry count. -/
theorem c8_pos_dist (posSubPool : List Player)
    (hnd : ((posSubPool.filter (fun player => jsLiked player)).map Player.id).Nodup)
    (hw : ∀ p ∈ posSubPool, 0 ≤ likedWeight p) :
    (∀ p ∈ posSubPool, jsLiked p →
      (((generatePosDist posSubPool).count (some p.id) : Int)
        = jsMathCeil (likedWeight p * 100)))
    ∧ (likedSlotCount posSubPool < 100 →
      (generatePosDist posSubPool).length = 100
      ∧ (generatePosDist posSubPool).count (none : Option Nat)
          = 100 - likedSlotCount posSubPool)
    ∧ (100 ≤ likedSlotCount posSubPool →
      (generatePosDist posSubPool).length = likedSlotCount posSubPool
      ∧ (generatePosDist posSubPool).count (none : Option Nat) = 0) := by
  refine ⟨?_, ?_, ?_⟩
  · intro p hp hliked
    have hmem : p ∈ posSubPool.filter (fun player => jsLiked player) :=
      List.mem_filter.mpr ⟨hp, hliked⟩
    have hcnt : (likedDist posSubPool).count (some p.id)
        = jsRangeLen (likedWeight p * 100) :=
      count_flatten_replicate _ p _ hnd hmem
    have hcast : ((jsRangeLen (likedWeight p * 100) : Nat) : Int)
        = jsMathCeil (likedWeight p * 100) :=
      Int.toNat_of_nonneg (jsMathCeil_nonneg _ (mul_nonneg (hw p hp) (by norm_num)))
    rw [generatePosDist_eq]
    split
    · rw [List.count_append, hcnt, List.count_replicate]
      simpa using hcast
    · rw [hcnt]
      exact hcast
  · intro hlt
    rw [generatePosDist_eq, if_pos (by rw [likedDist_length]; exact hlt)]
    constructor
    · rw [List.length_append, List.length_replicate, likedDist_length]
      omega
    · rw [List.count_append, likedDist_count_none, List.count_replicate_self,
        likedDist_length, Nat.zero_add]
  · intro hge
    rw [generatePosDist_eq, if_neg (by rw [likedDist_length]; omega)]
    exact ⟨likedDist_length posSubPool, likedDist_count_none posSubPool⟩

attribute [local semireducible] Rat.mul Rat.add Rat.sub Rat.inv in
/-- C8 witness: on `poolA`, liked player 1 (weight `1/2`) occupies
`ceil(50) = 50` entries of the PG distribution, which is padded to length
100 with 50 sentinels. -/
theorem c8_pos_dist_witness :
    ((generatePosDist poolA).count (some 1) : Int) = jsMathCeil (likedWeight pA * 100)
    ∧ (generatePosDist poolA).length = 100
    ∧ (generatePosDist poolA).count (none : Option Nat) = 100 - likedSlotCount poolA := by
  have h := c8_pos_dist poolA (by decide) (by decide)
  have h2 := h.2.1 (by decide)
  exact ⟨h.1 pA (by decide) (by decide), h2.1, h2.2⟩

/-- A successful sample comes from the sampled list. -/
theorem jsSample_mem {l : List α} {r : Nat} {a : α} (h : jsSample l r = some a) :
    a ∈ l := by
  unfold jsSample at h
  split at h
  · cases h
  · exact List.get?_mem h

/-- C9: when a (truthy) liked id is drawn but no eligible candidate
carries it, the slot fill fails rather than falling back to a uniform
choice; and when the sentinel is drawn (or the distribution is missing),
any player returned is non-liked. -/
theorem c9_bias_no_fallback (playerPool : List Player) (prep : Prep)
    (position : String) (remainingSalary : Int) (partialIds : List String)
    (r1 r2 : Nat) :
    (∀ lid : Nat, lid ≠ 0 →
      jsSample (prep.dist position) r1 = some (some lid) →
      (∀ p ∈ eligibleCandidates playerPool position remainingSalary partialIds,
        p.id ≠ lid) →
      getEligiblePlayer playerPool prep position remainingSalary partialIds r1 r2
        = none)
    ∧ ((jsSample (prep.dist position) r1 = none
        ∨ jsSample (prep.dist position) r1 = some none) →
      ∀ p, getEligiblePlayer playerPool prep position remainingSalary partialIds r1 r2
          = some p →
        jsLiked p = false) := by
  constructor
  · intro lid h0 hdraw hno
    simp only [getEligiblePlayer, hdraw]
    by_cases hlen :
        (eligibleCandidates playerPool position remainingSalary partialIds).length = 0
    · rw [if_pos hlen]
    · rw [if_neg hlen, if_neg h0]
      rw [List.filter_eq_nil_iff.mpr (fun a ha => by simpa using hno a ha)]
      rfl
  · intro hsent p hp
    rcases hsent with h | h <;>
    · simp only [getEligiblePlayer, h] at hp
      by_cases hlen :
          (eligibleCandidates playerPool position remainingSalary partialIds).length = 0
      · rw [if_pos hlen] at hp
        cases hp
      · rw [if_neg hlen] at hp
        have hmem := jsSample_mem hp
        have := (List.mem_filter.mp hmem).2
        simpa using this

/-- Liked point guard and one non-liked, cheaper point guard. -/
def pE : Player := ⟨5, 3, ["PG"], none⟩

/-- A pool with liked `pA` and non-liked `pE`, both PGs. -/
def poolE : List Player := [pA, pE]

/-- Prep for `poolE` over a one-slot PG template. -/
def prepE : Prep := generateLineupPrep 1 poolE ["PG"]

attribute [local semireducible] Rat.mul Rat.add Rat.sub Rat.inv in
/-- C9 witness: with remaining salary 10 the biased draw of id 1 is
blocked (player 1 costs 10), so the slot fails even though candidate `pE`
exists; and a sentinel draw returns the non-liked `pE`. -/
theorem c9_bias_no_fallback_witness :
    getEligiblePlayer poolE prepE "PG" 10 [] 0 0 = none ∧ jsLiked pE = false :=
  ⟨(c9_bias_no_fallback poolE prepE "PG" 10 [] 0 0).1 1 (by decide) (by decide)
      (by decide),
    (c9_bias_no_fallback poolE prepE "PG" 1000 [] 50 0).2 (Or.inr (by decide)) pE
      (by decide)⟩

/-- C10: when the sentinel is drawn and every eligible candidate for the
slot is liked, the slot fill returns no player and the whole lineup build
fails, even though eligible candidates exist. -/
theorem c10_all_liked_sentinel_fails (playerPool : List Player) (prep : Prep)
    (position : String) (rest : List String) (posId : Nat)
    (partialLineup : List Player) (partialIds : List String) (salaryCap : Int)
    (slotRand : Nat → Nat × Nat)
    (hsent : jsSample (prep.dist position) (slotRand posId).1 = none
      ∨ jsSample (prep.dist position) (slotRand posId).1 = some none)
    (hall : (eligibleCandidates playerPool position
        (salaryCap - getSalary partialLineup) partialIds).filter
        (fun player => !(jsLiked player)) = [])
    (hne : eligibleCandidates playerPool position
        (salaryCap - getSalary partialLineup) partialIds ≠ []) :
    getEligiblePlayer playerPool prep position (salaryCap - getSalary partialLineup)
        partialIds (slotRand posId).1 (slotRand posId).2 = none
    ∧ buildSlots playerPool prep salaryCap slotRand (position :: rest) posId
        partialLineup partialIds = none
    ∧ ∀ salaryFloor : Int, partialLineup = [] → partialIds = [] → posId = 0 →
        generateLineup playerPool prep (position :: rest) salaryFloor salaryCap
          slotRand = none := by
  have h1 : getEligiblePlayer playerPool prep position
      (salaryCap - getSalary partialLineup) partialIds
      (slotRand posId).1 (slotRand posId).2 = none := by
    rcases hsent with h | h <;>
    · simp only [getEligiblePlayer, h]
      by_cases hlen : (eligibleCandidates playerPool position
          (salaryCap - getSalary partialLineup) partialIds).length = 0
      · rw [if_pos hlen]
      · rw [if_neg hlen, hall]
        rfl
  have h2 : buildSlots playerPool prep salaryCap slotRand (position :: rest) posId
      partialLineup partialIds = none := by
    simp only [buildSlots, h1]
  refine ⟨h1, h2, ?_⟩
  intro salaryFloor hL hI hP
  subst hL
  subst hI
  subst hP
  simpa [generateLineup] using h2

attribute [local semireducible] Rat.mul Rat.add Rat.sub Rat.inv in
/-- C10 witness: on `poolA` the only eligible PG is the liked player 1, so
a sentinel draw (index 50 of the PG distribution) fails the slot and the
whole build. -/
theorem c10_all_liked_sentinel_fails_witness :
    getEligiblePlayer poolA prepA "PG" (1000 - getSalary []) [] 50 0 = none
    ∧ generateLineup poolA prepA ["PG"] 5 1000 (fun _ => (50, 0)) = none := by
  have h := c10_all_liked_sentinel_fails poolA prepA "PG" [] 0 [] [] 1000
    (fun _ => (50, 0)) (Or.inr (by decide)) (by decide) (by decide)
  exact ⟨h.1, h.2.2 5 rfl rfl rfl⟩

end LineupExposures
